import Mathlib

/-!
Verification development for the Plasma 2350W LED chase controller
(`examples/chase_web.py`).

The program keeps global mutable state (speed, chase colour, paint mode,
painted canvas), mutated by an HTTP query-string parser (`parse_request`),
a button gesture loop (`button_loop`), and rendered each tick by
`chase_loop` onto a WS2812 pixel strip.

We embed the state as a structure, the parser as a pure function over the
request text (CPython `str`/`int` semantics modelled on `List Char`),
the render tick as the list of `set_rgb` writes it performs (the net frame
is the last write per index), and the float fade arithmetic as an exact
model of IEEE-754 binary64 (mantissa/exponent pairs over ℤ with
round-to-nearest-even), since the observable channel values are produced
by `int(...)` truncation of double-precision products.
-/

namespace Chase

/-! ### Python string primitives, modelled on `List Char` -/

/-- The first line of the request: everything before the first `"\r\n"`
(`raw.split(b"\r\n")[0]`). -/
def takeUntilCRLF : List Char → List Char
  | '\r' :: '\n' :: _ => []
  | c :: rest => c :: takeUntilCRLF rest
  | [] => []

/-- Python `s.split(sep)` for a single-character separator: splits at every
occurrence, keeping empty pieces (`"".split(c) == [""]`). -/
def splitOnChar (sep : Char) : List Char → List (List Char)
  | [] => [[]]
  | c :: rest =>
    let r := splitOnChar sep rest
    if c = sep then [] :: r else (c :: r.headD []) :: r.tail

/-- Python `key, val = param.split("=")`: the two-element unpacking succeeds
iff the split yields exactly two pieces (exactly one `'='` in the param);
otherwise a `ValueError` is raised, modelled as `none`. -/
def splitKV (p : List Char) : Option (List Char × List Char) :=
  match splitOnChar '=' p with
  | [k, v] => some (k, v)
  | _ => none

/-- Python `val.strip("#")`: removes every leading and trailing `'#'`. -/
def pyStrip (c : Char) (l : List Char) : List Char :=
  ((l.dropWhile (fun x => x = c)).reverse.dropWhile (fun x => x = c)).reverse

/-- Python slice `s[a:b]` for `0 ≤ a ≤ b`: clamps to the string length. -/
def pySlice (l : List Char) (a b : ℕ) : List Char :=
  (l.drop a).take (b - a)

/-- ASCII whitespace stripped by Python `int(...)`. -/
def pyIsSpace (c : Char) : Bool :=
  c = ' ' || c = '\t' || c = '\n' || c = '\r' || c = '\x0b' || c = '\x0c'

/-- Decimal digit value, if any. -/
def digit10 (c : Char) : Option ℕ :=
  if '0' ≤ c ∧ c ≤ '9' then some (c.toNat - 48) else none

/-- Hexadecimal digit value, if any (Python accepts both cases). -/
def digit16 (c : Char) : Option ℕ :=
  if '0' ≤ c ∧ c ≤ '9' then some (c.toNat - 48)
  else if 'a' ≤ c ∧ c ≤ 'f' then some (c.toNat - 87)
  else if 'A' ≤ c ∧ c ≤ 'F' then some (c.toNat - 55)
  else none

/-- Continuation of a digit run: Python allows a single `'_'` between two
digits (`int("1_0")`), never leading, trailing or doubled. -/
def digitsRest (dv : Char → Option ℕ) (base : ℕ) : ℕ → List Char → Option ℕ
  | acc, [] => some acc
  | acc, '_' :: c :: rest =>
    match dv c with
    | some d => digitsRest dv base (acc * base + d) rest
    | none => none
  | acc, c :: rest =>
    match dv c with
    | some d => digitsRest dv base (acc * base + d) rest
    | none => none

/-- A nonempty digit run (must start with a digit). -/
def digitsRun (dv : Char → Option ℕ) (base : ℕ) : List Char → Option ℕ
  | [] => none
  | c :: rest =>
    match dv c with
    | some d => digitsRest dv base d rest
    | none => none

/-- Magnitude part of `int(s, 16)`: an optional `0x`/`0X` base marker
(optionally followed by one `'_'`) and then hex digits. -/
def magnitude16 : List Char → Option ℕ
  | '0' :: 'x' :: rest => afterBaseMarker rest
  | '0' :: 'X' :: rest => afterBaseMarker rest
  | l => digitsRun digit16 16 l
where
  afterBaseMarker : List Char → Option ℕ
    | '_' :: rest => digitsRun digit16 16 rest
    | rest => digitsRun digit16 16 rest

/-- Shared wrapper: strip whitespace, read an optional sign, then the
magnitude. -/
def pyIntWith (mag : List Char → Option ℕ) (l : List Char) : Option ℤ :=
  let t := ((l.dropWhile pyIsSpace).reverse.dropWhile pyIsSpace).reverse
  match t with
  | '+' :: rest => (mag rest).map fun n => (n : ℤ)
  | '-' :: rest => (mag rest).map fun n => -(n : ℤ)
  | rest => (mag rest).map fun n => (n : ℤ)

/-- CPython `int(s)` (base 10). Note the format does accept a sign. -/
def pyInt10 (l : List Char) : Option ℤ :=
  pyIntWith (digitsRun digit10 10) l

/-- CPython `int(s, 16)`. -/
def pyInt16 (l : List Char) : Option ℤ :=
  pyIntWith magnitude16 l

/-! ### Shared state (module globals of `chase_web.py`) -/

/-- `NUM_LEDS = 60`. -/
def NUM_LEDS : ℕ := 60

/-- `TRAIL_LENGTH = 4`. -/
def TRAIL_LENGTH : ℕ := 4

/-- The global mutable state: `speed`, `color_r`, `color_g`, `color_b`,
`remember` (paint mode) and the `painted` canvas.  Python integers are
unbounded, so the numeric fields are `ℤ`. -/
structure ChaseState where
  speed : ℤ
  color_r : ℤ
  color_g : ℤ
  color_b : ℤ
  remember : Bool
  painted : List (ℤ × ℤ × ℤ)
deriving DecidableEq, Repr

/-- `[(0, 0, 0)] * NUM_LEDS`. -/
def blankCanvas : List (ℤ × ℤ × ℤ) := List.replicate NUM_LEDS (0, 0, 0)

/-- The module-level initial values: `speed = 25`, colour red, paint mode
off, canvas all black. -/
def initState : ChaseState :=
  { speed := 25, color_r := 255, color_g := 0, color_b := 0,
    remember := false, painted := blankCanvas }

/-! ### parse_request -/

/-- `max(0, min(100, z))` — the clamp applied to the `speed` key. -/
def pyClamp (z : ℤ) : ℤ := max 0 (min 100 z)

/-- The `color` key body (lines 349-352): strip `'#'`, then assign
`color_r`, `color_g`, `color_b` in order from the three 2-character
slices.  Each assignment takes effect as soon as its own slice parses;
a failing slice raises, leaving the earlier assignments applied.
The `Bool` is `false` when an exception was raised. -/
def applyColor (s : ChaseState) (val : List Char) : ChaseState × Bool :=
  let h := pyStrip '#' val
  match pyInt16 (pySlice h 0 2) with
  | none => (s, false)
  | some r =>
    let s1 := { s with color_r := r }
    match pyInt16 (pySlice h 2 4) with
    | none => (s1, false)
    | some g =>
      let s2 := { s1 with color_g := g }
      match pyInt16 (pySlice h 4 6) with
      | none => (s2, false)
      | some b => ({ s2 with color_b := b }, true)

/-- One `key=value` pair of the query (loop body, lines 344-357).  The
`Bool` is `false` when the body raised (malformed pair or failed int
parse), which aborts the remaining pairs of the request. -/
def applyParam (s : ChaseState) (p : List Char) : ChaseState × Bool :=
  match splitKV p with
  | none => (s, false)
  | some (key, val) =>
    if key = "speed".data then
      match pyInt10 val with
      | none => (s, false)
      | some z => ({ s with speed := pyClamp z }, true)
    else if key = "color".data then
      applyColor s val
    else if key = "remember".data then
      if val = "1".data then ({ s with remember := true }, true)
      else ({ s with remember := false, painted := blankCanvas }, true)
    else (s, true)

/-- The parameter loop: apply pairs left to right; the first raising pair
stops the loop (the surrounding `try` swallows the exception), keeping
every mutation already performed. -/
def applyParams (s : ChaseState) : List (List Char) → ChaseState
  | [] => s
  | p :: ps =>
    match applyParam s p with
    | (s1, true) => applyParams s1 ps
    | (s1, false) => s1

/-- `parse_request(raw)`: take the request line, bail out if it has no
`'?'`, cut the query out of `line.split("?")[1].split(" ")[0]`, and run
the parameter loop over `query.split("&")`. -/
def parse_request (raw : List Char) (s : ChaseState) : ChaseState :=
  let line := takeUntilCRLF raw
  if line.contains '?' then
    let afterQ := (line.dropWhile (fun c => c ≠ '?')).drop 1
    let query := (afterQ.takeWhile (fun c => c ≠ '?')).takeWhile (fun c => c ≠ ' ')
    applyParams s (splitOnChar '&' query)
  else s

/-! ### build_page and the request handler -/

/-- Lowercase hex digit character for a value `< 16`. -/
def hexDigitChar (d : ℕ) : Char :=
  if d < 10 then Char.ofNat (48 + d) else Char.ofNat (87 + d)

/-- Hex digits of `n`, most significant first (empty for `0`); fuel-driven
recursion on `n / 16`, 64 digits is plenty for every reachable value. -/
def natHexAux : ℕ → ℕ → List Char → List Char
  | 0, _, acc => acc
  | _ + 1, 0, acc => acc
  | fuel + 1, n, acc => natHexAux fuel (n / 16) (hexDigitChar (n % 16) :: acc)

/-- Python `"{:x}".format(n)` for `n ≥ 0`. -/
def natHex (n : ℕ) : List Char :=
  if n = 0 then ['0'] else natHexAux 64 n []

/-- Python `"{:02x}".format(z)`: zero-padded to width 2; a negative value
carries a leading sign inside the width. -/
def format02x (z : ℤ) : List Char :=
  if z < 0 then
    let d := natHex (-z).toNat
    '-' :: List.replicate (1 - d.length) '0' ++ d
  else
    let d := natHex z.toNat
    List.replicate (2 - d.length) '0' ++ d

/-- `"#{:02x}{:02x}{:02x}".format(color_r, color_g, color_b)`
(line 232 of `build_page`). -/
def hex_color (s : ChaseState) : List Char :=
  '#' :: (format02x s.color_r ++ format02x s.color_g ++ format02x s.color_b)

/-- The data `build_page` interpolates into its fixed HTML template: the
hex colour string, the speed value, and the checkbox state.  The
surrounding static markup carries no state. -/
structure PageModel where
  hex : List Char
  speedVal : ℤ
  rememberChecked : Bool
deriving DecidableEq, Repr

/-- `build_page()` renders the template from the current state. -/
def build_page (s : ChaseState) : PageModel :=
  { hex := hex_color s, speedVal := s.speed, rememberChecked := s.remember }

/-- `handle_client` (lines 373-377): parse the request, then build and send
the status page from the resulting state — unconditionally, since
`parse_request` swallows every parse error. -/
def handle_client (raw : List Char) (s : ChaseState) : ChaseState × PageModel :=
  let s1 := parse_request raw s
  (s1, build_page s1)

/-! ### IEEE-754 binary64 model

The fade arithmetic of `chase_loop` runs on MicroPython doubles.  We model
a double as an integer mantissa times a power of two (not necessarily
normalised — only the value matters), and each arithmetic operation as the
exact integer computation followed by round-to-nearest-even at 53
significant bits.  Every value reached by the program is a normal,
in-range double, so overflow and subnormal handling are not needed. -/

/-- A binary floating-point value `m * 2^e`. -/
structure Fp where
  m : ℤ
  e : ℤ
deriving DecidableEq, Repr

/-- Floor base-2 logarithm with explicit fuel, so that it reduces inside
the kernel (`Nat.log2` uses well-founded recursion and does not). -/
def log2Fuel : ℕ → ℕ → ℕ
  | 0, _ => 0
  | fuel + 1, n => if n ≤ 1 then 0 else log2Fuel fuel (n / 2) + 1

/-- Floor base-2 logarithm of mantissas (every value in this development
is far below `2^200`). -/
def log2N (n : ℕ) : ℕ := log2Fuel 200 n

/-- Round a nonnegative mantissa to at most 53 significant bits
(round-to-nearest, ties to even). -/
def roundMantissa (n : ℕ) (e : ℤ) : Fp :=
  if n = 0 then ⟨0, 0⟩
  else
    let l := log2N n
    if l ≤ 52 then ⟨(n : ℤ), e⟩
    else
      let sh := l - 52
      let q := n / 2 ^ sh
      let r := n % 2 ^ sh
      let half := 2 ^ (sh - 1)
      let q1 :=
        if r < half then q
        else if half < r then q + 1
        else if q % 2 = 0 then q else q + 1
      ⟨(q1 : ℤ), e + sh⟩

/-- Round an exact dyadic value `m * 2^e` to a double. -/
def fpRound (m : ℤ) (e : ℤ) : Fp :=
  if 0 ≤ m then roundMantissa m.toNat e
  else
    let f := roundMantissa (-m).toNat e
    ⟨-f.m, f.e⟩

/-- Double multiplication: exact product, then one rounding. -/
def fmul (x y : Fp) : Fp := fpRound (x.m * y.m) (x.e + y.e)

/-- Double subtraction: exact difference, then one rounding. -/
def fsub (x y : Fp) : Fp :=
  let e := min x.e y.e
  fpRound (x.m * 2 ^ (x.e - e).toNat - y.m * 2 ^ (y.e - e).toNat) e

/-- Python `float(z)` (the implicit conversion in `int * float`). -/
def fpOfInt (z : ℤ) : Fp := fpRound z 0

/-- The double `1.0`. -/
def fpOne : Fp := ⟨1, 0⟩

/-- Correctly rounded double division `a / b` of naturals (Python `a / b`
true division), for `0 < a < b * 2^52` as in every use below: scale `a`
just enough that the quotient has 53 bits, then round on the exact
remainder. -/
def fdivNat (a b : ℕ) : Fp :=
  if a = 0 ∨ b = 0 then ⟨0, 0⟩
  else
    let s := ((List.range 200).find? fun s => b * 2 ^ 52 ≤ a * 2 ^ s).getD 0
    let A := a * 2 ^ s
    let q := A / b
    let r := A % b
    let q1 :=
      if 2 * r < b then q
      else if b < 2 * r then q + 1
      else if q % 2 = 0 then q else q + 1
    ⟨(q1 : ℤ), -(s : ℤ)⟩

/-- Python `int(x)`: truncation toward zero. -/
def truncFp (x : Fp) : ℤ :=
  if 0 ≤ x.e then x.m * 2 ^ x.e.toNat
  else if 0 ≤ x.m then (x.m.toNat / 2 ^ (-x.e).toNat : ℕ)
  else -(((-x.m).toNat / 2 ^ (-x.e).toNat : ℕ) : ℤ)

/-! ### chase_loop: one render tick -/

/-- `DIM = 0.4` (line 121): the double literal, i.e. `2 / 5` correctly
rounded. -/
def DIM : Fp := fdivNat 2 5

/-- `fade = 1.0 - (t / (TRAIL_LENGTH + 1))` (lines 141/157). -/
def fade (t : ℕ) : Fp := fsub fpOne (fdivNat t (TRAIL_LENGTH + 1))

/-- `int(pr * DIM)` — a painted channel at reduced brightness. -/
def dimChannel (c : ℤ) : ℤ := truncFp (fmul (fpOfInt c) DIM)

/-- `int(color * fade * fade)` — a trail channel (left-associated, as in
the source). -/
def trailChannel (c : ℤ) (t : ℕ) : ℤ :=
  truncFp (fmul (fmul (fpOfInt c) (fade t)) (fade t))

/-- `trail_idx = (head - t) % NUM_LEDS` (Python `%` on a positive modulus
is nonnegative, like `%` on `ℤ`, which is `Int.emod`). -/
def trailIndex (head t : ℕ) : ℕ :=
  (((head : ℤ) - (t : ℤ)) % (NUM_LEDS : ℤ)).toNat

/-- One iteration of the `chase_loop` body (lines 124-161): the updated
state (the canvas stamp in paint mode) together with the sequence of
`led_strip.set_rgb` writes it issues, in program order. -/
def chaseTick (s : ChaseState) (offset : ℕ) : ChaseState × List (ℕ × (ℤ × ℤ × ℤ)) :=
  let head := offset % NUM_LEDS
  if s.remember then
    let painted1 := s.painted.set head (s.color_r, s.color_g, s.color_b)
    let baseWrites := (List.range NUM_LEDS).map fun i =>
      (i, (dimChannel (painted1.getD i (0, 0, 0)).1,
           dimChannel (painted1.getD i (0, 0, 0)).2.1,
           dimChannel (painted1.getD i (0, 0, 0)).2.2))
    let trailWrites := (List.range' 1 TRAIL_LENGTH).map fun t =>
      (trailIndex head t,
        (max (dimChannel (painted1.getD (trailIndex head t) (0, 0, 0)).1)
             (trailChannel s.color_r t),
         max (dimChannel (painted1.getD (trailIndex head t) (0, 0, 0)).2.1)
             (trailChannel s.color_g t),
         max (dimChannel (painted1.getD (trailIndex head t) (0, 0, 0)).2.2)
             (trailChannel s.color_b t)))
    ({ s with painted := painted1 },
      baseWrites ++ [(head, (s.color_r, s.color_g, s.color_b))] ++ trailWrites)
  else
    let clearWrites := (List.range NUM_LEDS).map fun i => (i, ((0 : ℤ), (0 : ℤ), (0 : ℤ)))
    let trailWrites := (List.range' 1 TRAIL_LENGTH).map fun t =>
      (trailIndex head t,
        (trailChannel s.color_r t, trailChannel s.color_g t, trailChannel s.color_b t))
    (s, clearWrites ++ [(head, (s.color_r, s.color_g, s.color_b))] ++ trailWrites)

/-- The value a pixel is left showing after a sequence of writes: the last
write to that index, if any. -/
def lastWrite (ws : List (ℕ × (ℤ × ℤ × ℤ))) (i : ℕ) : Option (ℤ × ℤ × ℤ) :=
  ws.foldl (fun acc w => if w.1 = i then some w.2 else acc) none

/-! ### button_loop -/

/-- The long-press phase of `button_loop` (lines 191-199): while the button
stays pressed, each poll observes a timestamp; if the long press has not
fired yet and the held duration reached `LONG_PRESS_MS = 600`, paint mode
is toggled and the `long_fired` latch set.  We track the latch and how
many times the toggle fired. -/
def longPhase (start : ℕ) (lf : Bool) (n : ℕ) : List ℕ → Bool × ℕ
  | [] => (lf, n)
  | t :: ts =>
    if lf = false ∧ 600 ≤ t - start then longPhase start true (n + 1) ts
    else longPhase start lf n ts

/-- The gesture resolved after release. -/
inductive BtnAction where
  | nextColor
  | pauseToggle
deriving DecidableEq, Repr

/-- After release (lines 201-222): if the long press fired, nothing more
happens; otherwise the double-press window decides between the pause
toggle and the next colour. -/
def postRelease (longFired : Bool) (secondPress : Bool) : Option BtnAction :=
  if longFired then none
  else if secondPress then some .pauseToggle
  else some .nextColor

/-- The long-press action (lines 194-196): flip `remember` and, only when
it turns off, clear the canvas. -/
def toggle_paint (s : ChaseState) : ChaseState :=
  let r := !s.remember
  { s with remember := r, painted := if r = false then blankCanvas else s.painted }

/-- The double-press action (line 216): `speed = 0 if speed > 0 else 25`. -/
def toggle_pause (sp : ℤ) : ℤ := if 0 < sp then 0 else 25

/-- The two write paths to `speed`: the request handler's clamped `speed`
key and the button's pause toggle. -/
inductive SpeedWrite where
  | request (z : ℤ)
  | pauseToggle
deriving DecidableEq, Repr

/-- Effect of one speed write on the stored value. -/
def applySpeedWrite (sp : ℤ) : SpeedWrite → ℤ
  | .request z => pyClamp z
  | .pauseToggle => toggle_pause sp

/-! ### Helper lemmas -/

/-- Once a parameter raises, the rest of the request is never reached:
the loop result over any longer list equals the result up to the
offending parameter. -/
theorem applyParams_abort_prefix {p : List Char} (hp : splitKV p = none)
    (rest : List (List Char)) :
    ∀ (ps : List (List Char)) (s : ChaseState),
      applyParams s (ps ++ p :: rest) = applyParams s ps := by
  intro ps
  induction ps with
  | nil =>
    intro s
    simp [applyParams, applyParam, hp]
  | cons q qs ih =>
    intro s
    simp only [List.cons_append, applyParams]
    rcases h : applyParam s q with ⟨s1, ok⟩
    cases ok
    · rfl
    · exact ih s1

/-- Speed stays in `[0, 100]` through any interleaving of the two write
paths, from any in-range starting value. -/
theorem speed_fold_bounds :
    ∀ (ws : List SpeedWrite) (sp : ℤ), 0 ≤ sp → sp ≤ 100 →
      0 ≤ List.foldl applySpeedWrite sp ws ∧ List.foldl applySpeedWrite sp ws ≤ 100 := by
  intro ws
  induction ws with
  | nil => intro sp h0 h1; exact ⟨h0, h1⟩
  | cons w ws ih =>
    intro sp h0 h1
    have hw : 0 ≤ applySpeedWrite sp w ∧ applySpeedWrite sp w ≤ 100 := by
      cases w with
      | request z => simp only [applySpeedWrite, pyClamp]; omega
      | pauseToggle =>
        simp only [applySpeedWrite, toggle_pause]
        split <;> omega
    exact ih (applySpeedWrite sp w) hw.1 hw.2

/-- Writing another index leaves a `getD` read unchanged. -/
theorem getD_set_ne (l : List (ℤ × ℤ × ℤ)) (i j : ℕ) (v d : ℤ × ℤ × ℤ)
    (h : i ≠ j) : (l.set i v).getD j d = l.getD j d := by
  simp [List.getD_eq_getElem?_getD, List.getElem?_set_ne h]

/-- Once the long-press latch is set, no further poll fires the toggle. -/
theorem longPhase_latched (start n : ℕ) :
    ∀ ts : List ℕ, longPhase start true n ts = (true, n) := by
  intro ts
  induction ts with
  | nil => rfl
  | cons t ts ih => simpa [longPhase] using ih

/-- The long-press phase fires the paint toggle exactly once when some
poll observes a held duration of at least 600 ms, and never otherwise. -/
theorem longPhase_spec (start : ℕ) :
    ∀ ts : List ℕ,
      longPhase start false 0 ts =
        if ∃ t ∈ ts, start + 600 ≤ t then (true, 1) else (false, 0) := by
  intro ts
  induction ts with
  | nil => simp [longPhase]
  | cons t ts ih =>
    show (if false = false ∧ 600 ≤ t - start then longPhase start true (0 + 1) ts
          else longPhase start false 0 ts) = _
    by_cases h : 600 ≤ t - start
    · have hex : ∃ x ∈ t :: ts, start + 600 ≤ x := ⟨t, by simp, by omega⟩
      rw [if_pos (⟨rfl, h⟩ : false = false ∧ 600 ≤ t - start), if_pos hex]
      simpa using longPhase_latched start 1 ts
    · have hne : ¬(false = false ∧ 600 ≤ t - start) := fun hc => h hc.2
      have hiff : (∃ x ∈ t :: ts, start + 600 ≤ x) ↔ (∃ x ∈ ts, start + 600 ≤ x) := by
        constructor
        · rintro ⟨x, hx, hxle⟩
          rcases List.mem_cons.mp hx with rfl | hx
          · omega
          · exact ⟨x, hx, hxle⟩
        · rintro ⟨x, hx, hxle⟩
          exact ⟨x, List.mem_cons_of_mem _ hx, hxle⟩
      rw [if_neg hne, ih]
      by_cases hq : ∃ x ∈ ts, start + 600 ≤ x
      · rw [if_pos hq, if_pos (hiff.mpr hq)]
      · rw [if_neg hq, if_neg (fun hc => hq (hiff.mp hc))]

/-- The characters accepted as one hex digit by `int(-, 16)`. -/
def hexChars : List Char := "0123456789abcdefABCDEF".data

set_option maxRecDepth 10000 in
/-- A two-hex-digit slice always parses, and `"{:02x}"` formatting of the
parsed value is exactly the lowercased pair. -/
theorem hexPair_eval : ∀ c1 ∈ hexChars, ∀ c2 ∈ hexChars,
    (pyInt16 [c1, c2]).isSome = true ∧
    format02x ((pyInt16 [c1, c2]).getD 0) = [c1.toLower, c2.toLower] := by
  decide

/-! ### Claims -/

/-- C1 (counterexample): `speed=-5` is NOT rejected as a parse failure —
Python's `int` accepts a sign — so the stored speed does not stay at its
prior value 25: it is clamped to 0. -/
theorem c1_speed_negative_counterexample :
    (parse_request "GET /?speed=-5 HTTP/1.1".data initState).speed = 0 ∧
    initState.speed = 25 ∧
    (parse_request "GET /?speed=-5 HTTP/1.1".data initState).speed ≠ initState.speed := by
  decide

/-- C1 (amended): for every request parameter carrying the `speed` key
whose value parses as an integer `z` (the format does allow a sign, so
`speed=-5` parses to `-5`), the stored speed becomes
`max 0 (min 100 z)`: values above 100 are stored as 100 and values below
0 — including negative-signed inputs — are stored as 0. -/
theorem c1_speed_clamped (s : ChaseState) (p val : List Char) (z : ℤ)
    (hsplit : splitKV p = some ("speed".data, val))
    (hz : pyInt10 val = some z) :
    (applyParam s p).1.speed = max 0 (min 100 z) ∧
    (100 < z → (applyParam s p).1.speed = 100) ∧
    (z < 0 → (applyParam s p).1.speed = 0) := by
  simp only [applyParam, hsplit, hz, pyClamp, eq_self_iff_true, if_true]
  refine ⟨trivial, ?_, ?_⟩ <;> intro h <;> omega

/-- C1 witness: the amended clamp at the concrete input `speed=-5`. -/
theorem c1_speed_clamped_witness :
    splitKV "speed=-5".data = some ("speed".data, "-5".data) ∧
    pyInt10 "-5".data = some (-5) ∧
    (applyParam initState "speed=-5".data).1.speed = max 0 (min 100 (-5)) := by
  refine ⟨by decide, by decide, ?_⟩
  exact (c1_speed_clamped initState "speed=-5".data "-5".data (-5)
    (by decide) (by decide)).1

set_option maxRecDepth 100000 in
/-- C4: for `LED_COUNT = 60`, `TRAIL_LENGTH = 4`, non-paint mode,
`head = 10`, colour `(255, 0, 0)`, a single render tick leaves pixel 10 at
`(255, 0, 0)`, pixel 9 at `(163, 0, 0)` (factor `(1 - 1/5)^2` in double
arithmetic, truncated), pixel 6 at `(10, 0, 0)` (factor `(1 - 4/5)^2`,
truncated), and `(0, 0, 0)` at every pixel outside `6..10`. -/
theorem c4_render_tick_values :
    lastWrite (chaseTick initState 10).2 10 = some (255, 0, 0) ∧
    lastWrite (chaseTick initState 10).2 9 = some (163, 0, 0) ∧
    lastWrite (chaseTick initState 10).2 6 = some (10, 0, 0) ∧
    ∀ i : ℕ, i < 60 → i < 6 ∨ 10 < i →
      lastWrite (chaseTick initState 10).2 i = some (0, 0, 0) := by
  decide

/-- C6: toggling paint mode twice restores the flag; the canvas is cleared
exactly on the on→off transition (the on-transition leaves it untouched),
so a double toggle clears it exactly once and ends with a blank canvas. -/
theorem c6_toggle_paint_double (s : ChaseState) :
    (toggle_paint (toggle_paint s)).remember = s.remember ∧
    (toggle_paint s).painted = (if s.remember then blankCanvas else s.painted) ∧
    (toggle_paint (toggle_paint s)).painted = blankCanvas := by
  cases h : s.remember <;> simp [toggle_paint, h]

/-- C7: starting from the default speed 25, any sequence of speed writes —
clamped request values and pause toggles — keeps the stored speed in
`[0, 100]`. -/
theorem c7_speed_invariant (ws : List SpeedWrite) :
    0 ≤ List.foldl applySpeedWrite initState.speed ws ∧
    List.foldl applySpeedWrite initState.speed ws ≤ 100 :=
  speed_fold_bounds ws initState.speed (by norm_num [initState]) (by norm_num [initState])

/-- C10: a query parameter that does not split into exactly one key and
one value around `'='` aborts the parse at that parameter: the parameter
itself mutates nothing, parameters after it are never processed (mutations
from parameters before it remain, being already folded in), and the
handler still returns the normal status page of the resulting state. -/
theorem c10_malformed_param_aborts (s : ChaseState) (ps : List (List Char))
    (p : List Char) (rest : List (List Char)) (hp : splitKV p = none) :
    applyParam s p = (s, false) ∧
    applyParams s (ps ++ p :: rest) = applyParams s ps ∧
    (∀ raw s1, handle_client raw s1 = (parse_request raw s1, build_page (parse_request raw s1))) := by
  refine ⟨?_, applyParams_abort_prefix hp rest ps s, fun raw s1 => rfl⟩
  simp [applyParam, hp]

/-- C10 witness: `remember` (no `'='`) aborts; the earlier `speed=50`
stays applied and the later `color=00ff00` is ignored. -/
theorem c10_malformed_param_aborts_witness :
    splitKV "remember".data = none ∧
    applyParams initState (["speed=50".data] ++ "remember".data :: ["color=00ff00".data]) =
      applyParams initState ["speed=50".data] := by
  exact ⟨by decide,
    (c10_malformed_param_aborts initState ["speed=50".data] "remember".data
      ["color=00ff00".data] (by decide)).2.1⟩

/-- C2 (counterexample): a `color` value whose stripped form has length 5
— NOT exactly 6 hex digits — does not raise: the parse continues, and a
later `speed=50` in the same request is still applied. -/
theorem c2_wrong_length_counterexample :
    pyStrip '#' "ff000".data = "ff000".data ∧
    ("ff000".data).length = 5 ∧
    (applyParam initState "color=ff000".data).2 = true ∧
    (parse_request "GET /?color=ff000&speed=50 HTTP/1.1".data initState).speed = 50 := by
  decide

/-- C2 (amended): a `color` parameter aborts the remaining keys of its
request precisely when one of the three 2-character slices of the
stripped value fails to parse as base-16 — so any stripped length at most
4 aborts (an empty slice), as does a non-hex character among the six
digit positions, but a 5-character all-hex value succeeds with a
one-digit blue pair and characters beyond the sixth are ignored.  When it
aborts, no later key of the request is processed (earlier mutations,
already folded into the state, remain), and the handler still returns the
normal status page of the resulting state. -/
theorem c2_color_abort_characterization (s : ChaseState) (p val : List Char)
    (rest : List (List Char))
    (hsplit : splitKV p = some ("color".data, val)) :
    ((applyParam s p).2 = false ↔
      pyInt16 (pySlice (pyStrip '#' val) 0 2) = none ∨
      pyInt16 (pySlice (pyStrip '#' val) 2 4) = none ∨
      pyInt16 (pySlice (pyStrip '#' val) 4 6) = none) ∧
    ((applyParam s p).2 = false → applyParams s (p :: rest) = (applyParam s p).1) ∧
    (∀ raw s1, (handle_client raw s1).2 = build_page (handle_client raw s1).1) := by
  have hkey : (applyParam s p) = applyColor s val := by
    simp [applyParam, hsplit]
  refine ⟨?_, ?_, fun raw s1 => rfl⟩
  · rw [hkey]
    unfold applyColor
    rcases h1 : pyInt16 (pySlice (pyStrip '#' val) 0 2) with _ | r
    · simp [h1]
    · rcases h2 : pyInt16 (pySlice (pyStrip '#' val) 2 4) with _ | g
      · simp [h1, h2]
      · rcases h3 : pyInt16 (pySlice (pyStrip '#' val) 4 6) with _ | b <;>
          simp [h1, h2, h3]
  · intro hf
    rcases hap : applyParam s p with ⟨s1, ok⟩
    rw [hap] at hf
    simp only at hf
    subst hf
    simp [applyParams, hap]

/-- C2 witness: `color=ff00` (stripped length 4, empty blue slice) aborts
and the rest of the request is dropped. -/
theorem c2_color_abort_witness :
    splitKV "color=ff00".data = some ("color".data, "ff00".data) ∧
    (applyParam initState "color=ff00".data).2 = false ∧
    applyParams initState ("color=ff00".data :: ["speed=9".data]) =
      (applyParam initState "color=ff00".data).1 := by
  have h := c2_color_abort_characterization initState "color=ff00".data "ff00".data
    ["speed=9".data] (by decide)
  have hf : (applyParam initState "color=ff00".data).2 = false :=
    h.1.mpr (Or.inr (Or.inr (by decide)))
  exact ⟨by decide, hf, h.2.1 hf⟩

/-- C3 (counterexample): the `color` key is not atomic: on
`color=00xx00` the red pair parses and is stored (255 becomes 0) before
the green pair fails, so `color_r` does not keep its prior value. -/
theorem c3_partial_color_counterexample :
    initState.color_r = 255 ∧
    (parse_request "GET /?color=00xx00 HTTP/1.1".data initState).color_r = 0 := by
  decide

/-- C3 (amended): the `speed` key is all-or-nothing and the `remember`
key never fails, but the `color` key is applied channel by channel, left
to right: a failure at the green pair leaves the new red applied, a
failure at the blue pair leaves red and green applied, and only a failure
at the red pair leaves the whole colour unchanged. -/
theorem c3_per_key_application (s : ChaseState) (p key val : List Char)
    (hsplit : splitKV p = some (key, val)) :
    (key = "speed".data → (applyParam s p).2 = false → (applyParam s p).1 = s) ∧
    (key = "remember".data → (applyParam s p).2 = true) ∧
    (key = "color".data →
      (pyInt16 (pySlice (pyStrip '#' val) 0 2) = none → (applyParam s p).1 = s) ∧
      (∀ r, pyInt16 (pySlice (pyStrip '#' val) 0 2) = some r →
        pyInt16 (pySlice (pyStrip '#' val) 2 4) = none →
        (applyParam s p).1 = { s with color_r := r }) ∧
      (∀ r g, pyInt16 (pySlice (pyStrip '#' val) 0 2) = some r →
        pyInt16 (pySlice (pyStrip '#' val) 2 4) = some g →
        pyInt16 (pySlice (pyStrip '#' val) 4 6) = none →
        (applyParam s p).1 = { s with color_r := r, color_g := g }) ∧
      (∀ r g b, pyInt16 (pySlice (pyStrip '#' val) 0 2) = some r →
        pyInt16 (pySlice (pyStrip '#' val) 2 4) = some g →
        pyInt16 (pySlice (pyStrip '#' val) 4 6) = some b →
        (applyParam s p).1 = { s with color_r := r, color_g := g, color_b := b } ∧
        (applyParam s p).2 = true)) := by
  refine ⟨?_, ?_, ?_⟩
  · rintro rfl
    simp only [applyParam, hsplit, if_pos rfl]
    rcases hz : pyInt10 val with _ | z <;> simp [hz]
  · rintro rfl
    have : (applyParam s p) =
        if val = "1".data then ({ s with remember := true }, true)
        else ({ s with remember := false, painted := blankCanvas }, true) := by
      simp [applyParam, hsplit]
    rw [this]
    split <;> rfl
  · rintro rfl
    have hkey : (applyParam s p) = applyColor s val := by
      simp [applyParam, hsplit]
    rw [hkey]
    unfold applyColor
    refine ⟨fun h1 => by simp [h1], fun r h1 h2 => by simp [h1, h2],
      fun r g h1 h2 h3 => by simp [h1, h2, h3],
      fun r g b h1 h2 h3 => by simp [h1, h2, h3]⟩

/-- C3 witness: on `color=00xx00` from the initial state, exactly the red
channel is overwritten (with 0) and green/blue keep their prior values. -/
theorem c3_per_key_application_witness :
    splitKV "color=00xx00".data = some ("color".data, "00xx00".data) ∧
    (applyParam initState "color=00xx00".data).1 = { initState with color_r := 0 } := by
  refine ⟨by decide, ?_⟩
  exact ((c3_per_key_application initState "color=00xx00".data "color".data
    "00xx00".data (by decide)).2.2 rfl).2.1 0 (by decide) (by decide)

/-- C5: in paint mode, at every trail position `t ∈ 1..TRAIL_LENGTH` the
rendered value of each channel is exactly the maximum of the painted-base
value (the painted channel scaled by `DIM = 0.4` and truncated to int)
and the trail intensity `int(colour * fade * fade)` with
`fade = 1 - t/(TRAIL_LENGTH+1)`; hence the rendered value of a painted
pixel under the trail is never below its painted-base value. -/
theorem c5_paint_trail_max (s : ChaseState) (offset t : ℕ)
    (ht1 : 1 ≤ t) (ht2 : t ≤ TRAIL_LENGTH) (hrem : s.remember = true) :
    lastWrite (chaseTick s offset).2 (trailIndex (offset % NUM_LEDS) t) =
      some
        (max (dimChannel (s.painted.getD (trailIndex (offset % NUM_LEDS) t) (0, 0, 0)).1)
             (trailChannel s.color_r t),
         max (dimChannel (s.painted.getD (trailIndex (offset % NUM_LEDS) t) (0, 0, 0)).2.1)
             (trailChannel s.color_g t),
         max (dimChannel (s.painted.getD (trailIndex (offset % NUM_LEDS) t) (0, 0, 0)).2.2)
             (trailChannel s.color_b t)) ∧
    dimChannel (s.painted.getD (trailIndex (offset % NUM_LEDS) t) (0, 0, 0)).1 ≤
      max (dimChannel (s.painted.getD (trailIndex (offset % NUM_LEDS) t) (0, 0, 0)).1)
          (trailChannel s.color_r t) ∧
    dimChannel (s.painted.getD (trailIndex (offset % NUM_LEDS) t) (0, 0, 0)).2.1 ≤
      max (dimChannel (s.painted.getD (trailIndex (offset % NUM_LEDS) t) (0, 0, 0)).2.1)
          (trailChannel s.color_g t) ∧
    dimChannel (s.painted.getD (trailIndex (offset % NUM_LEDS) t) (0, 0, 0)).2.2 ≤
      max (dimChannel (s.painted.getD (trailIndex (offset % NUM_LEDS) t) (0, 0, 0)).2.2)
          (trailChannel s.color_b t) := by
  refine ⟨?_, le_max_left _ _, le_max_left _ _, le_max_left _ _⟩
  have ht2' : t ≤ 4 := ht2
  have hrange : List.range' 1 TRAIL_LENGTH = [1, 2, 3, 4] := rfl
  have hne : ∀ j k : ℕ, 1 ≤ j → j ≤ 4 → 1 ≤ k → k ≤ 4 → j ≠ k →
      trailIndex (offset % NUM_LEDS) j ≠ trailIndex (offset % NUM_LEDS) k := by
    intro j k h1 h2 h3 h4 h5
    simp only [trailIndex, NUM_LEDS, Nat.cast_ofNat]
    omega
  have hnh : ∀ j : ℕ, 1 ≤ j → j ≤ 4 →
      offset % NUM_LEDS ≠ trailIndex (offset % NUM_LEDS) j := by
    intro j h1 h2
    simp only [trailIndex, NUM_LEDS, Nat.cast_ofNat]
    omega
  simp only [chaseTick, hrem, if_true, hrange, List.map_cons, List.map_nil, lastWrite,
    List.foldl_append, List.foldl_cons, List.foldl_nil]
  interval_cases t
  · rw [if_neg (hne 4 1 (by norm_num) (by norm_num) (by norm_num) (by norm_num) (by norm_num)),
      if_neg (hne 3 1 (by norm_num) (by norm_num) (by norm_num) (by norm_num) (by norm_num)),
      if_neg (hne 2 1 (by norm_num) (by norm_num) (by norm_num) (by norm_num) (by norm_num)),
      if_pos rfl, getD_set_ne _ _ _ _ _ (hnh 1 (by norm_num) (by norm_num))]
  · rw [if_neg (hne 4 2 (by norm_num) (by norm_num) (by norm_num) (by norm_num) (by norm_num)),
      if_neg (hne 3 2 (by norm_num) (by norm_num) (by norm_num) (by norm_num) (by norm_num)),
      if_pos rfl, getD_set_ne _ _ _ _ _ (hnh 2 (by norm_num) (by norm_num))]
  · rw [if_neg (hne 4 3 (by norm_num) (by norm_num) (by norm_num) (by norm_num) (by norm_num)),
      if_pos rfl, getD_set_ne _ _ _ _ _ (hnh 3 (by norm_num) (by norm_num))]
  · rw [if_pos rfl, getD_set_ne _ _ _ _ _ (hnh 4 (by norm_num) (by norm_num))]

/-- A concrete paint-mode state for the C5 witness: chase colour
`(255, 0, 0)`, pixel 9 painted `(10, 200, 7)`. -/
def c5State : ChaseState :=
  { speed := 25, color_r := 255, color_g := 0, color_b := 0,
    remember := true, painted := blankCanvas.set 9 (10, 200, 7) }

set_option maxRecDepth 100000 in
/-- C5 witness: at `head = 10`, `t = 1` (pixel 9, painted `(10, 200, 7)`)
the rendered value is `(max 4 163, max 80 0, max 2 0) = (163, 80, 2)`. -/
theorem c5_paint_trail_max_witness :
    c5State.remember = true ∧
    lastWrite (chaseTick c5State 10).2 (trailIndex (10 % NUM_LEDS) 1) =
      some
        (max (dimChannel (c5State.painted.getD (trailIndex (10 % NUM_LEDS) 1) (0, 0, 0)).1)
             (trailChannel c5State.color_r 1),
         max (dimChannel (c5State.painted.getD (trailIndex (10 % NUM_LEDS) 1) (0, 0, 0)).2.1)
             (trailChannel c5State.color_g 1),
         max (dimChannel (c5State.painted.getD (trailIndex (10 % NUM_LEDS) 1) (0, 0, 0)).2.2)
             (trailChannel c5State.color_b 1)) ∧
    lastWrite (chaseTick c5State 10).2 9 = some (163, 80, 2) :=
  ⟨rfl, (c5_paint_trail_max c5State 10 1 (by decide) (by decide) rfl).1, by decide⟩

/-- C8: for every `color` value made of exactly 6 hex digits, the parse
succeeds and the hex colour rendered by `build_page`
(`"#{:02x}{:02x}{:02x}"`) is the lowercase form of those same 6 digits
(so a lowercase input round-trips identically). -/
theorem c8_color_roundtrip (s : ChaseState) (p val : List Char)
    (hsplit : splitKV p = some ("color".data, val))
    (hlen : val.length = 6) (hhex : ∀ c ∈ val, c ∈ hexChars) :
    (applyParam s p).2 = true ∧
    hex_color (applyParam s p).1 = '#' :: val.map Char.toLower := by
  rcases val with _ | ⟨a, _ | ⟨b, _ | ⟨c, _ | ⟨d, _ | ⟨e, _ | ⟨f, _ | ⟨g, rest⟩⟩⟩⟩⟩⟩⟩ <;>
    simp only [List.length] at hlen <;> try omega
  have ha := hhex a (by simp)
  have hb := hhex b (by simp)
  have hc := hhex c (by simp)
  have hd := hhex d (by simp)
  have he := hhex e (by simp)
  have hf := hhex f (by simp)
  have hash : ∀ x ∈ hexChars, ¬(x = '#') := by decide
  have hstrip : pyStrip '#' [a, b, c, d, e, f] = [a, b, c, d, e, f] := by
    simp [pyStrip, hash a ha, hash f hf]
  have h1 := hexPair_eval a ha b hb
  have h2 := hexPair_eval c hc d hd
  have h3 := hexPair_eval e he f hf
  obtain ⟨zr, hzr⟩ := Option.isSome_iff_exists.mp h1.1
  obtain ⟨zg, hzg⟩ := Option.isSome_iff_exists.mp h2.1
  obtain ⟨zb, hzb⟩ := Option.isSome_iff_exists.mp h3.1
  have hfr : format02x zr = [a.toLower, b.toLower] := by
    have := h1.2; rwa [hzr] at this
  have hfg : format02x zg = [c.toLower, d.toLower] := by
    have := h2.2; rwa [hzg] at this
  have hfb : format02x zb = [e.toLower, f.toLower] := by
    have := h3.2; rwa [hzb] at this
  have hkey : applyParam s p = applyColor s [a, b, c, d, e, f] := by
    simp [applyParam, hsplit]
  rw [hkey]
  simp only [applyColor, hstrip]
  rw [show pySlice [a, b, c, d, e, f] 0 2 = [a, b] from rfl,
    show pySlice [a, b, c, d, e, f] 2 4 = [c, d] from rfl,
    show pySlice [a, b, c, d, e, f] 4 6 = [e, f] from rfl, hzr, hzg, hzb]
  refine ⟨rfl, ?_⟩
  simp [hex_color, hfr, hfg, hfb]

/-- C8 witness: `color=AbCdEf` parses and renders back as `#abcdef`. -/
theorem c8_color_roundtrip_witness :
    splitKV "color=AbCdEf".data = some ("color".data, "AbCdEf".data) ∧
    ("AbCdEf".data).length = 6 ∧
    (∀ c ∈ "AbCdEf".data, c ∈ hexChars) ∧
    (applyParam initState "color=AbCdEf".data).2 = true ∧
    hex_color (applyParam initState "color=AbCdEf".data).1 =
      '#' :: ("AbCdEf".data).map Char.toLower ∧
    hex_color (applyParam initState "color=AbCdEf".data).1 = "#abcdef".data := by
  have h := c8_color_roundtrip initState "color=AbCdEf".data "AbCdEf".data
    (by decide) (by decide) (by decide)
  exact ⟨by decide, by decide, by decide, h.1, h.2, by decide⟩

/-- C9: during one continuous hold, the long-press toggle fires at most
once no matter how many polls observe the button, fires exactly once as
soon as some poll sees a held duration of at least 600 ms (and never
again, however long the hold continues), and a release with the
long-fired latch set triggers no further action — neither next-colour nor
pause toggle. -/
theorem c9_long_press_once (start : ℕ) (ts : List ℕ) :
    (longPhase start false 0 ts).2 ≤ 1 ∧
    ((∃ t ∈ ts, start + 600 ≤ t) →
      (longPhase start false 0 ts).2 = 1 ∧ (longPhase start false 0 ts).1 = true) ∧
    (∀ secondPress, postRelease true secondPress = none) := by
  have hs := longPhase_spec start ts
  refine ⟨?_, ?_, fun _ => rfl⟩
  · rw [hs]; split <;> simp
  · intro hex
    rw [hs, if_pos hex]
    exact ⟨rfl, rfl⟩

/-- C9 witness: a hold polled at 100 ms, 700 ms and 900 ms fires the
toggle exactly once, and the release triggers nothing further. -/
theorem c9_long_press_once_witness :
    (∃ t ∈ [100, 700, 900], 0 + 600 ≤ t) ∧
    (longPhase 0 false 0 [100, 700, 900]).2 = 1 ∧
    (longPhase 0 false 0 [100, 700, 900]).1 = true ∧
    postRelease true false = none := by
  have h := c9_long_press_once 0 [100, 700, 900]
  have hex : ∃ t ∈ [100, 700, 900], 0 + 600 ≤ t := ⟨700, by decide, by decide⟩
  exact ⟨hex, (h.2.1 hex).1, (h.2.1 hex).2, h.2.2 false⟩

end Chase
